import Mathlib

/-!
Verification of the EC2 fleet manager (`src/ec2_manager.py`) against its
specification.  The Python module is shallowly embedded: pure computations
become Lean functions, console input and provider responses become explicit
arguments, and exceptions become explicit outcome values.  Provider-mutating
API requests are recorded as an explicit list of `ApiCall` values so that
theorems can speak about which calls an action issues.
-/

namespace Ec2Manager

/-- Python whitespace predicate used by `str.split()` / `str.strip()`
(space, tab, newline, carriage return, vertical tab, form feed). -/
def pyIsSpace (c : Char) : Bool :=
  c = ' ' || c = '\t' || c = '\n' || c = '\r' || c = '\x0b' || c = '\x0c'

/-- One step of the right fold behind `pySplitWs`: maintain the word being
assembled and the words already finished. -/
def splitWsStep (c : Char) : List Char × List String → List Char × List String
  | (cur, acc) =>
    if pyIsSpace c then
      if cur.isEmpty then ([], acc) else ([], String.mk cur :: acc)
    else (c :: cur, acc)

/-- Python `str.split()` with no separator: split on runs of whitespace and drop
empty fields. -/
def pySplitWs (s : String) : List String :=
  match s.data.foldr splitWsStep ([], []) with
  | (cur, acc) => if cur.isEmpty then acc else String.mk cur :: acc

/-- Drop trailing characters satisfying `p` (helper for `pyStrip`). -/
def dropTrailing (p : Char → Bool) (cs : List Char) : List Char :=
  ((cs.reverse).dropWhile p).reverse

/-- Python `str.strip()` with no argument: remove leading and trailing
whitespace. -/
def pyStrip (s : String) : String :=
  String.mk (dropTrailing pyIsSpace (s.data.dropWhile pyIsSpace))

/-- Python `str.lower()` restricted to ASCII letters, which is all the
confirmation logic of the tool compares against. -/
def pyLower (s : String) : String :=
  String.mk (s.data.map Char.toLower)

/-- Accumulate decimal digits, allowing single underscores between digits as
Python's `int` does (`int("1_0") = 10`, `int("1__0")` raises). -/
def parseDigitsAux : Nat → List Char → Option Nat
  | acc, [] => some acc
  | acc, c :: rest =>
    if c.isDigit then parseDigitsAux (acc * 10 + (c.toNat - 48)) rest
    else if c = '_' then
      match rest with
      | [] => none
      | d :: rest2 =>
        if d.isDigit then parseDigitsAux (acc * 10 + (d.toNat - 48)) rest2
        else none
    else none

/-- A nonempty digit sequence that must start with a digit. -/
def parseUDigits : List Char → Option Nat
  | [] => none
  | d :: rest => if d.isDigit then parseDigitsAux (d.toNat - 48) rest else none

/-- Python `int(s)`: optional surrounding whitespace, optional sign, decimal
digits (with single interior underscores); returns `none` where Python
raises `ValueError`. -/
def pyInt (s : String) : Option Int :=
  let cs := (pyStrip s).data
  match cs with
  | '+' :: rest => (parseUDigits rest).map (fun n => (n : Int))
  | '-' :: rest => (parseUDigits rest).map (fun n => -(n : Int))
  | _ => (parseUDigits cs).map (fun n => (n : Int))

/-- Python `max(numbers, default=0)`: the maximum element of the list, or `0`
when the list is empty (a list of negative numbers has a negative maximum). -/
def pyMaxD0 : List Int → Int
  | [] => 0
  | x :: xs => xs.foldl max x

/-- Python `f"{n:02d}"`: decimal rendering zero-padded to total width 2
(the sign counts toward the width, so negative numbers get no padding). -/
def pyFormat02d (n : Int) : String :=
  if n < 0 then "-" ++ toString (-n)
  else
    let s := toString n
    if s.length < 2 then "0" ++ s else s

/-- Python list indexing `xs[i]`: non-negative indices from the front,
negative indices from the back; `none` where Python raises `IndexError`. -/
def pyIndex {α : Type} (xs : List α) (i : Int) : Option α :=
  if 0 ≤ i then
    (if i < (xs.length : Int) then xs.get? i.toNat else none)
  else
    (if -(xs.length : Int) ≤ i then xs.get? (i + (xs.length : Int)).toNat
     else none)

/-- One record of `get_managed_instances`'s return value:
`{"InstanceId": ..., "Name": ..., "State": ...}`. -/
structure Instance where
  instanceId : String
  name : String
  state : String
deriving Repr, DecidableEq

/-- The suffix-parsing step of `generate_next_name` for one instance:
`int(inst["Name"].split()[-1])`, with the `except: pass` that ignores both
an empty split (`IndexError`) and an unparseable token (`ValueError`). -/
def nameSuffixNum (name : String) : Option Int :=
  match (pySplitWs name).getLast? with
  | none => none
  | some tok => pyInt tok

/-- The parsed suffixes collected by `generate_next_name`'s loop
(`numbers`). -/
def suffixNumbers (instances : List Instance) : List Int :=
  instances.filterMap (fun inst => nameSuffixNum inst.name)

/-- The computation `next_num = max(numbers, default=0) + 1` in `generate_next_name`. -/
def nextNum (instances : List Instance) : Int :=
  pyMaxD0 (suffixNumbers instances) + 1

/-- Embedding of `generate_next_name` (src/ec2_manager.py:80-92) applied to the listing
returned by `get_managed_instances`: returns
`f"{INSTANCE_NAME} {next_num:02d}"`. -/
def generate_next_name (instanceName : String) (instances : List Instance) :
    String :=
  instanceName ++ " " ++ pyFormat02d (nextNum instances)

/-- Behavior of `generate_next_name` as actually executed: its first statement calls
`get_managed_instances()` (a provider describe call) with no surrounding
`try`, so a lookup failure propagates to the caller as an exception. -/
def generate_next_name_run (instanceName : String)
    (lookup : Except String (List Instance)) : Except String String :=
  match lookup with
  | .error e => .error e
  | .ok instances => .ok (generate_next_name instanceName instances)

/-- Provider-mutating API requests issued by the tool.  Describe calls are
pure reads; their result is the `instances` listing an action receives as
input. -/
inductive ApiCall
  | createInstances (count : Nat)
  | createTags (id : String) (name : String)
  | startInstances (ids : List String)
  | stopInstances (ids : List String)
  | terminateInstances (ids : List String)
  | waitRunning (ids : List String)
deriving Repr, DecidableEq

/-- How an action finishes: `done msg` is a normal return whose decisive
console line is `msg`; `raised e` is an exception escaping the action to its
caller. -/
inductive Outcome
  | done (msg : String)
  | raised (e : String)
deriving Repr, DecidableEq

/-- True when an action finished by returning normally, i.e. no exception
escaped its boundary. -/
def Outcome.isDone : Outcome → Bool
  | .done _ => true
  | .raised _ => false

/-- Python `", ".join(xs)`, also used to render id lists in success
messages (element quoting of Python's list repr is abstracted away). -/
def joinComma : List String → String
  | [] => ""
  | [x] => x
  | x :: xs => x ++ ", " ++ joinComma xs

/-- Rendering of an id list inside an f-string, `f"... {ids}"`. -/
def showIds (ids : List String) : String :=
  "[" ++ joinComma ids ++ "]"

/-- Embedding of `start_instance` (src/ec2_manager.py:164-177).  `instances` is what
`list_instances` returns, `choiceInput` the raw console line; `startErr`
is `some e` when the provider rejects the `start_instances` call.  Note the
function body has no `try`: a bad `int()` parse or a bad index raises out of
the action. -/
def start_instance_run (instances : List Instance) (choiceInput : String)
    (startErr : Option String) : List ApiCall × Outcome :=
  if instances.isEmpty then ([], .done "❌ No managed instances found")
  else
    match pyInt choiceInput with
    | none => ([], .raised "ValueError")
    | some choice =>
      match pyIndex instances (choice - 1) with
      | none => ([], .raised "IndexError")
      | some inst =>
        if inst.state ≠ "stopped" then
          ([], .done "❌ Instance must be in stopped state")
        else
          match startErr with
          | some e => ([.startInstances [inst.instanceId]], .raised e)
          | none =>
            ([.startInstances [inst.instanceId]],
             .done ("✅ Starting " ++ inst.name))

/-- Embedding of `stop_instance` (src/ec2_manager.py:183-196), same shape as
`start_instance` with the `running` precondition. -/
def stop_instance_run (instances : List Instance) (choiceInput : String)
    (stopErr : Option String) : List ApiCall × Outcome :=
  if instances.isEmpty then ([], .done "❌ No managed instances found")
  else
    match pyInt choiceInput with
    | none => ([], .raised "ValueError")
    | some choice =>
      match pyIndex instances (choice - 1) with
      | none => ([], .raised "IndexError")
      | some inst =>
        if inst.state ≠ "running" then
          ([], .done "❌ Instance must be running")
        else
          match stopErr with
          | some e => ([.stopInstances [inst.instanceId]], .raised e)
          | none =>
            ([.stopInstances [inst.instanceId]],
             .done ("✅ Stopping " ++ inst.name))

/-- Embedding of `terminate_instance` (src/ec2_manager.py:202-219): select by index, then
a confirmation prompt; the call is issued only when the lowercased input is
exactly `yes`. -/
def terminate_instance_run (instances : List Instance)
    (choiceInput confirmInput : String) (termErr : Option String) :
    List ApiCall × Outcome :=
  if instances.isEmpty then ([], .done "❌ No managed instances found")
  else
    match pyInt choiceInput with
    | none => ([], .raised "ValueError")
    | some choice =>
      match pyIndex instances (choice - 1) with
      | none => ([], .raised "IndexError")
      | some inst =>
        if pyLower confirmInput ≠ "yes" then ([], .done "Cancelled.")
        else
          match termErr with
          | some e => ([.terminateInstances [inst.instanceId]], .raised e)
          | none =>
            ([.terminateInstances [inst.instanceId]],
             .done ("✅ Terminated " ++ inst.name))

/-- Embedding of `start_all_instances` (src/ec2_manager.py:225-239): filter the listing
to `stopped` instances and issue one bulk call, or print a nothing-to-do
message. -/
def start_all_instances_run (instances : List Instance)
    (startErr : Option String) : List ApiCall × Outcome :=
  let to_start :=
    (instances.filter (fun inst => inst.state = "stopped")).map
      (fun inst => inst.instanceId)
  if to_start.isEmpty then ([], .done "❌ No stopped instances to start")
  else
    match startErr with
    | some e => ([.startInstances to_start], .raised e)
    | none =>
      ([.startInstances to_start],
       .done ("✅ Starting instances: " ++ showIds to_start))

/-- Embedding of `stop_all_instances` (src/ec2_manager.py:245-259). -/
def stop_all_instances_run (instances : List Instance)
    (stopErr : Option String) : List ApiCall × Outcome :=
  let to_stop :=
    (instances.filter (fun inst => inst.state = "running")).map
      (fun inst => inst.instanceId)
  if to_stop.isEmpty then ([], .done "❌ No running instances to stop")
  else
    match stopErr with
    | some e => ([.stopInstances to_stop], .raised e)
    | none =>
      ([.stopInstances to_stop],
       .done ("✅ Stopping instances: " ++ showIds to_stop))

/-- The confirmation prompt of `terminate_all_instances`:
`f"⚠️ TERMINATE ALL {len(ids)} instances? (yes/no): "`. -/
def terminate_all_prompt (n : Nat) : String :=
  "⚠️ TERMINATE ALL " ++ toString n ++ " instances? (yes/no): "

/-- Embedding of `terminate_all_instances` (src/ec2_manager.py:265-283).  The third
component is the prompt shown to the user (`none` when the listing is empty
and the action returns before prompting). -/
def terminate_all_instances_run (instances : List Instance)
    (confirmInput : String) (termErr : Option String) :
    List ApiCall × Outcome × Option String :=
  if instances.isEmpty then ([], .done "❌ No instances found", none)
  else
    let ids := instances.map (fun inst => inst.instanceId)
    let prompt := terminate_all_prompt ids.length
    if pyLower confirmInput ≠ "yes" then
      ([], .done "Cancelled.", some prompt)
    else
      match termErr with
      | some e => ([.terminateInstances ids], .raised e, some prompt)
      | none =>
        ([.terminateInstances ids],
         .done ("✅ Terminated instances: " ++ showIds ids), some prompt)

/-- The per-created-instance loop of `create_instances`
(src/ec2_manager.py:119-128): each iteration calls `generate_next_name`
(one describe lookup, indexed by iteration number `k`) and then
`create_tags`.  Returns the tag calls issued and the first exception, if
any (the loop runs inside `create_instances`'s `try`). -/
def create_tag_loop (base : String)
    (lookup : Nat → Except String (List Instance))
    (tagErr : Nat → Option String) :
    List String → Nat → List ApiCall × Option String
  | [], _ => ([], none)
  | id :: rest, k =>
    match lookup k with
    | .error e => ([], some e)
    | .ok listing =>
      let name := generate_next_name base listing
      match tagErr k with
      | some e => ([.createTags id name], some e)
      | none =>
        match create_tag_loop base lookup tagErr rest (k + 1) with
        | (calls, exc) => (.createTags id name :: calls, exc)

/-- Embedding of `create_instances` (src/ec2_manager.py:98-139).  The whole body runs in
a `try`, so every failure — the count parse, the provider create, the tag
loop, the running-wait — is caught at this action's boundary and reported
with `❌ Creation failed: ...` (exception text abstracted to the failure
tag).  `createRes` is the provider's answer to `create_instances` (the ids
of the created instances), `lookup k` the listing seen by the `k`-th
`generate_next_name` call, `tagErr k` the `k`-th `create_tags` error,
`waitErr` the waiter's error. -/
def create_instances_run (base : String) (countInput : String)
    (createRes : Except String (List String))
    (lookup : Nat → Except String (List Instance))
    (tagErr : Nat → Option String) (waitErr : Option String) :
    List ApiCall × Outcome :=
  match pyInt countInput with
  | none => ([], .done "❌ Creation failed: ValueError")
  | some count =>
    if count ≤ 0 then ([], .done "❌ Invalid number")
    else
      match createRes with
      | .error e =>
        ([.createInstances count.toNat], .done ("❌ Creation failed: " ++ e))
      | .ok ids =>
        match create_tag_loop base lookup tagErr ids 0 with
        | (tagCalls, some e) =>
          (.createInstances count.toNat :: tagCalls,
           .done ("❌ Creation failed: " ++ e))
        | (tagCalls, none) =>
          match waitErr with
          | some e =>
            (.createInstances count.toNat :: tagCalls ++ [.waitRunning ids],
             .done ("❌ Creation failed: " ++ e))
          | none =>
            (.createInstances count.toNat :: tagCalls ++ [.waitRunning ids],
             .done "✅ All instances running")

/-- The seven menu entries of `main` (src/ec2_manager.py:289-317). -/
inductive MenuAction
  | create | start | stop | terminate | startAll | stopAll | terminateAll
deriving Repr, DecidableEq

/-- Menu dispatch: `choice = input("Enter choice: ").strip()` compared
against `"1"`..`"7"`. -/
def main_choice (raw : String) : Option MenuAction :=
  let c := pyStrip raw
  if c = "1" then some .create
  else if c = "2" then some .start
  else if c = "3" then some .stop
  else if c = "4" then some .terminate
  else if c = "5" then some .startAll
  else if c = "6" then some .stopAll
  else if c = "7" then some .terminateAll
  else none

/-- Embedding of `main` (src/ec2_manager.py:289-317): dispatch to the selected action
(whose execution is the oracle `act`), or print the invalid-choice message
and return. -/
def main_run (raw : String) (act : MenuAction → List ApiCall × Outcome) :
    List ApiCall × Outcome :=
  match main_choice raw with
  | some a => act a
  | none => ([], .done "❌ Invalid choice")

/-- The `__main__` guard (src/ec2_manager.py:320-326): `main()` inside a
`try`; an escaping exception is logged, printed as `❌ Fatal error: ...`,
and the process exits with status 1; a normal return exits with status 0.
Result: calls issued, final console line, process exit status. -/
def top_level (r : List ApiCall × Outcome) : List ApiCall × String × Nat :=
  match r with
  | (calls, .done m) => (calls, m, 0)
  | (calls, .raised e) => (calls, "❌ Fatal error: " ++ e, 1)

/-- One whole process invocation after startup. -/
def process_run (raw : String) (act : MenuAction → List ApiCall × Outcome) :
    List ApiCall × String × Nat :=
  top_level (main_run raw act)

/-- The environment variables the module reads (src/ec2_manager.py:11-17);
`none` models an unset variable. -/
structure Env where
  ami_id : Option String
  key_name : Option String
  security_group_id : Option String
  subnet_id : Option String
deriving Repr, DecidableEq

/-- Python truthiness test `not v` on `os.getenv`'s result: holds for an
unset variable and for the empty string. -/
def envFalsy : Option String → Bool
  | none => true
  | some s => s = ""

/-- The list `missing = [k for k, v in REQUIRED_VARS.items() if not v]`
(src/ec2_manager.py:27), in the dict's insertion order. -/
def missingVars (e : Env) : List String :=
  (if envFalsy e.ami_id then ["AMI_ID"] else []) ++
  (if envFalsy e.key_name then ["KEY_NAME"] else []) ++
  (if envFalsy e.security_group_id then ["SECURITY_GROUP_ID"] else []) ++
  (if envFalsy e.subnet_id then ["SUBNET_ID"] else [])

/-- What module import reaches: either the `ValueError` of line 29 (raised
before any boto3 object exists) or the construction of the two provider
clients at lines 41-42. -/
inductive StartupResult
  | fatal (msg : String)
  | clientsConstructed
deriving Repr, DecidableEq

/-- Module-level startup (src/ec2_manager.py:20-42): the validation block
runs strictly before `boto3.resource` / `boto3.client` are constructed, so
a missing variable aborts with no provider client and no provider call. -/
def startup (e : Env) : StartupResult :=
  if (missingVars e).isEmpty then .clientsConstructed
  else
    .fatal ("Missing required environment variables: " ++
      joinComma (missingVars e))

/-- Exit status of the import when startup fails: an uncaught exception at
module level terminates the interpreter with status 1.  `none` means import
succeeded and execution continues into `main`. -/
def startup_exit_code (e : Env) : Option Nat :=
  match startup e with
  | .fatal _ => some 1
  | .clientsConstructed => none

/-! ### Helper lemmas -/

theorem foldl_max_init_le (xs : List Int) : ∀ a : Int, a ≤ xs.foldl max a := by
  induction xs with
  | nil => intro a; exact le_refl a
  | cons x xs ih =>
    intro a
    exact le_trans (le_max_left a x) (ih (max a x))

theorem mem_le_foldl_max (xs : List Int) :
    ∀ a : Int, ∀ m ∈ xs, m ≤ xs.foldl max a := by
  induction xs with
  | nil => intro a m hm; cases hm
  | cons x xs ih =>
    intro a m hm
    cases hm with
    | head => exact le_trans (le_max_right a x) (foldl_max_init_le xs (max a x))
    | tail _ hm => exact ih (max a x) m hm

theorem mem_le_pyMaxD0 (nums : List Int) : ∀ m ∈ nums, m ≤ pyMaxD0 nums := by
  cases nums with
  | nil => intro m hm; cases hm
  | cons x xs =>
    intro m hm
    cases hm with
    | head => exact foldl_max_init_le xs x
    | tail _ hm => exact mem_le_foldl_max xs x m hm

theorem mem_infix_joinComma (v : String) :
    ∀ l : List String, v ∈ l → v.data <:+: (joinComma l).data := by
  intro l
  induction l with
  | nil => intro h; cases h
  | cons x xs ih =>
    intro h
    cases h with
    | head =>
      cases xs with
      | nil => exact List.infix_refl _
      | cons y ys =>
        refine ⟨[], (", " ++ joinComma (y :: ys)).data, ?_⟩
        simp [joinComma, String.data_append]
    | tail _ hmem =>
      cases xs with
      | nil => cases hmem
      | cons y ys =>
        obtain ⟨a, b, hab⟩ := ih hmem
        refine ⟨(x ++ ", ").data ++ a, b, ?_⟩
        simp [joinComma, String.data_append, ← hab]

/-! ### Claim theorems -/

/-- C1: for every base name and every listing of existing non-terminated
instances, `generate_next_name` produces the name whose numeric part is
`max(parsed suffixes, default 0) + 1` (unparseable suffixes are ignored via
`suffixNumbers`), equal to `1` when no suffix parses, and strictly greater
than every existing parseable suffix. -/
theorem C1_next_name_suffix (base : String) (instances : List Instance) :
    generate_next_name base instances =
      base ++ " " ++ pyFormat02d (pyMaxD0 (suffixNumbers instances) + 1) ∧
    (suffixNumbers instances = [] → nextNum instances = 1) ∧
    (∀ m ∈ suffixNumbers instances, m < nextNum instances) := by
  refine ⟨rfl, ?_, ?_⟩
  · intro h
    simp [nextNum, h, pyMaxD0]
  · intro m hm
    have := mem_le_pyMaxD0 (suffixNumbers instances) m hm
    simp only [nextNum]
    omega

theorem C1_next_name_suffix_witness :
    nextNum [] = 1 ∧
    (3 : Int) < nextNum [⟨"i-1", "App 02", "running"⟩,
      ⟨"i-2", "App 03", "stopped"⟩] :=
  ⟨(C1_next_name_suffix "App" []).2.1 rfl,
   (C1_next_name_suffix "App" [⟨"i-1", "App 02", "running"⟩,
      ⟨"i-2", "App 03", "stopped"⟩]).2.2 3 (by decide)⟩

/-- C2 counterexample: when the listing lookup fails, `generate_next_name`
does not return the sentinel `"App-manual"`; the exception propagates out of
the resolver unchanged. -/
theorem C2_no_manual_sentinel :
    generate_next_name_run "App" (.error "RequestLimitExceeded") =
      .error "RequestLimitExceeded" ∧
    generate_next_name_run "App" (.error "RequestLimitExceeded") ≠
      .ok "App-manual" :=
  ⟨rfl, fun h => Except.noConfusion h⟩

/-- C2 amended: a lookup failure inside `generate_next_name` propagates to
the caller as an exception (no sentinel name of any form is produced); the
enclosing `create_instances` catches it at its own boundary, reports
`❌ Creation failed: ...`, and returns normally. -/
theorem C2_lookup_failure_propagates (base e countInput : String)
    (count : Int) (id0 : String) (rest : List String)
    (hparse : pyInt countInput = some count) (hpos : 0 < count) :
    generate_next_name_run base (.error e) = .error e ∧
    (create_instances_run base countInput (.ok (id0 :: rest))
        (fun _ => .error e) (fun _ => none) none).2 =
      .done ("❌ Creation failed: " ++ e) := by
  refine ⟨rfl, ?_⟩
  simp only [create_instances_run, hparse]
  rw [if_neg (by omega)]
  simp [create_tag_loop]

theorem C2_lookup_failure_propagates_witness :
    generate_next_name_run "App" (.error "boom") = .error "boom" ∧
    (create_instances_run "App" "1" (.ok ["i-0"])
        (fun _ => .error "boom") (fun _ => none) none).2 =
      .done ("❌ Creation failed: " ++ "boom") :=
  C2_lookup_failure_propagates "App" "boom" "1" 1 "i-0" []
    (by decide) (by decide)

/-- C3 counterexample: with base name `"App"` and a listing containing
exactly `"App-01"` and `"App-02"`, the resolver does not return `"App-03"`:
both dash-joined names fail the whitespace-split suffix parse, so it
returns `"App 01"`. -/
theorem C3_dash_names_ignored :
    generate_next_name "App"
      [⟨"i-1", "App-01", "running"⟩, ⟨"i-2", "App-02", "running"⟩] ≠
      "App-03" ∧
    generate_next_name "App"
      [⟨"i-1", "App-01", "running"⟩, ⟨"i-2", "App-02", "running"⟩] =
      "App 01" := by
  constructor
  · intro h
    exact absurd h (by decide)
  · decide

/-- C3 amended: the tool's naming convention is space-separated; with a
listing containing exactly `"App 01"` and `"App 02"` and base name
`"App"`, the resolver returns `"App 03"`. -/
theorem C3_space_names_next :
    generate_next_name "App"
      [⟨"i-1", "App 01", "running"⟩, ⟨"i-2", "App 02", "running"⟩] =
      "App 03" := by
  decide

theorem pyIndex_nil_eq_none (i : Int) :
    pyIndex ([] : List Instance) i = none := by
  simp [pyIndex]

/-- C4: for every listing and every valid selected index, `start_instance`
issues no start call and prints the stopped-state guard when the selected
instance is not `"stopped"`, and `stop_instance` issues no stop call and
prints the running-state guard when it is not `"running"`; both return
normally. -/
theorem C4_single_state_gate (instances : List Instance) (choice : Int)
    (choiceInput : String) (inst : Instance) (err : Option String)
    (hparse : pyInt choiceInput = some choice)
    (hidx : pyIndex instances (choice - 1) = some inst) :
    (inst.state ≠ "stopped" →
      start_instance_run instances choiceInput err =
        ([], .done "❌ Instance must be in stopped state")) ∧
    (inst.state ≠ "running" →
      stop_instance_run instances choiceInput err =
        ([], .done "❌ Instance must be running")) := by
  have hne : instances.isEmpty = false := by
    cases instances with
    | nil => rw [pyIndex_nil_eq_none] at hidx; cases hidx
    | cons a as => rfl
  constructor
  · intro hstate
    simp [start_instance_run, hne, hparse, hidx, hstate]
  · intro hstate
    simp [stop_instance_run, hne, hparse, hidx, hstate]

theorem C4_single_state_gate_witness :
    start_instance_run [⟨"i-1", "App 01", "pending"⟩] "1" none =
      ([], .done "❌ Instance must be in stopped state") ∧
    stop_instance_run [⟨"i-1", "App 01", "pending"⟩] "1" none =
      ([], .done "❌ Instance must be running") := by
  have h := C4_single_state_gate [⟨"i-1", "App 01", "pending"⟩] 1 "1"
    ⟨"i-1", "App 01", "pending"⟩ none (by decide) (by decide)
  exact ⟨h.1 (by decide), h.2 (by decide)⟩

/-- C5: for every confirmation input, terminate-single and terminate-all
issue their provider terminate call exactly when the lowercased input is
`"yes"`; anything else cancels with no call; and the terminate-all prompt
states the count of instances about to be destroyed. -/
theorem C5_terminate_confirmation (instances : List Instance) (choice : Int)
    (choiceInput confirmInput : String) (inst : Instance) (err : Option String)
    (hparse : pyInt choiceInput = some choice)
    (hidx : pyIndex instances (choice - 1) = some inst) :
    (pyLower confirmInput = "yes" →
      (terminate_instance_run instances choiceInput confirmInput err).1 =
        [.terminateInstances [inst.instanceId]] ∧
      (terminate_all_instances_run instances confirmInput err).1 =
        [.terminateInstances (instances.map (fun i => i.instanceId))]) ∧
    (pyLower confirmInput ≠ "yes" →
      terminate_instance_run instances choiceInput confirmInput err =
        ([], .done "Cancelled.") ∧
      terminate_all_instances_run instances confirmInput err =
        ([], .done "Cancelled.", some (terminate_all_prompt instances.length))) ∧
    (terminate_all_instances_run instances confirmInput err).2.2 =
      some (terminate_all_prompt instances.length) ∧
    terminate_all_prompt instances.length =
      "⚠️ TERMINATE ALL " ++ toString instances.length ++
        " instances? (yes/no): " := by
  have hne : instances.isEmpty = false := by
    cases instances with
    | nil => rw [pyIndex_nil_eq_none] at hidx; cases hidx
    | cons a as => rfl
  refine ⟨?_, ?_, ?_, rfl⟩
  · intro hyes
    cases err with
    | none =>
      constructor
      · simp [terminate_instance_run, hne, hparse, hidx, hyes]
      · simp [terminate_all_instances_run, hne, hyes]
    | some e =>
      constructor
      · simp [terminate_instance_run, hne, hparse, hidx, hyes]
      · simp [terminate_all_instances_run, hne, hyes]
  · intro hno
    constructor
    · simp [terminate_instance_run, hne, hparse, hidx, hno]
    · simp [terminate_all_instances_run, hne, hno]
  · cases hyn : decide (pyLower confirmInput = "yes") with
    | true =>
      have hyes := of_decide_eq_true hyn
      cases err with
      | none => simp [terminate_all_instances_run, hne, hyes]
      | some e => simp [terminate_all_instances_run, hne, hyes]
    | false =>
      have hno := of_decide_eq_false hyn
      simp [terminate_all_instances_run, hne, hno]

theorem C5_terminate_confirmation_witness :
    (terminate_instance_run [⟨"i-1", "App 01", "running"⟩] "1" "YES" none).1 =
      [.terminateInstances ["i-1"]] ∧
    terminate_instance_run [⟨"i-1", "App 01", "running"⟩] "1" "" none =
      ([], .done "Cancelled.") ∧
    (terminate_all_instances_run [⟨"i-1", "App 01", "running"⟩] "YES" none).2.2 =
      some (terminate_all_prompt 1) := by
  have hy := C5_terminate_confirmation [⟨"i-1", "App 01", "running"⟩] 1 "1"
    "YES" ⟨"i-1", "App 01", "running"⟩ none (by decide) (by decide)
  have hn := C5_terminate_confirmation [⟨"i-1", "App 01", "running"⟩] 1 "1"
    "" ⟨"i-1", "App 01", "running"⟩ none (by decide) (by decide)
  exact ⟨(hy.1 (by decide)).1, (hn.2.1 (by decide)).1, hy.2.2.1⟩

/-- C6: start-all issues exactly one bulk call carrying exactly the ids of
the `"stopped"` instances of the listing, stop-all exactly one bulk call
carrying exactly the ids of the `"running"` ones; with an empty filtered
set no call is made and the nothing-to-do message is printed. -/
theorem C6_bulk_filtered_calls (instances : List Instance)
    (err : Option String) :
    ((instances.filter (fun i => i.state = "stopped")).map
        (fun i => i.instanceId) = [] →
      start_all_instances_run instances err =
        ([], .done "❌ No stopped instances to start")) ∧
    ((instances.filter (fun i => i.state = "stopped")).map
        (fun i => i.instanceId) ≠ [] →
      (start_all_instances_run instances err).1 =
        [.startInstances ((instances.filter (fun i => i.state = "stopped")).map
          (fun i => i.instanceId))]) ∧
    ((instances.filter (fun i => i.state = "running")).map
        (fun i => i.instanceId) = [] →
      stop_all_instances_run instances err =
        ([], .done "❌ No running instances to stop")) ∧
    ((instances.filter (fun i => i.state = "running")).map
        (fun i => i.instanceId) ≠ [] →
      (stop_all_instances_run instances err).1 =
        [.stopInstances ((instances.filter (fun i => i.state = "running")).map
          (fun i => i.instanceId))]) := by
  refine ⟨?_, ?_, ?_, ?_⟩
  · intro h
    simp [start_all_instances_run, h]
  · intro h
    cases err with
    | none => simp [start_all_instances_run, h]
    | some e => simp [start_all_instances_run, h]
  · intro h
    simp [stop_all_instances_run, h]
  · intro h
    cases err with
    | none => simp [stop_all_instances_run, h]
    | some e => simp [stop_all_instances_run, h]

theorem C6_bulk_filtered_calls_witness :
    (start_all_instances_run [⟨"i-1", "App 01", "stopped"⟩] none).1 =
      [.startInstances ["i-1"]] ∧
    stop_all_instances_run [⟨"i-1", "App 01", "stopped"⟩] none =
      ([], .done "❌ No running instances to stop") := by
  have h := C6_bulk_filtered_calls [⟨"i-1", "App 01", "stopped"⟩] none
  exact ⟨by simpa using h.2.1 (by decide), by simpa using h.2.2.1 (by decide)⟩

/-- C7: a mandatory environment item that is absent makes startup abort with
a `ValueError` whose message names every missing item, before the provider
clients are constructed (so before any provider call), and the interpreter
exits with a non-zero status; with `AMI_ID` unset, `"AMI_ID"` is among the
named variables. -/
theorem C7_missing_env_fatal (e : Env) (hmiss : missingVars e ≠ []) :
    startup e = .fatal ("Missing required environment variables: " ++
      joinComma (missingVars e)) ∧
    startup e ≠ .clientsConstructed ∧
    startup_exit_code e = some 1 ∧
    (e.ami_id = none → "AMI_ID" ∈ missingVars e) ∧
    (∀ v ∈ missingVars e,
      v.data <:+: ("Missing required environment variables: " ++
        joinComma (missingVars e)).data) := by
  have hne : (missingVars e).isEmpty = false := by
    cases h : missingVars e with
    | nil => exact absurd h hmiss
    | cons a as => rfl
  have hstart : startup e = .fatal ("Missing required environment variables: "
      ++ joinComma (missingVars e)) := by
    simp [startup, hne]
  refine ⟨hstart, ?_, ?_, ?_, ?_⟩
  · rw [hstart]
    intro h
    cases h
  · simp [startup_exit_code, hstart]
  · intro hami
    simp [missingVars, envFalsy, hami]
  · intro v hv
    obtain ⟨a, b, hab⟩ := mem_infix_joinComma v (missingVars e) hv
    refine ⟨("Missing required environment variables: ").data ++ a, b, ?_⟩
    simp [String.data_append, ← hab]

theorem C7_missing_env_fatal_witness :
    startup ⟨none, some "k", some "sg", some "sn"⟩ =
      .fatal ("Missing required environment variables: " ++
        joinComma (missingVars ⟨none, some "k", some "sg", some "sn"⟩)) ∧
    startup_exit_code ⟨none, some "k", some "sg", some "sn"⟩ = some 1 ∧
    "AMI_ID" ∈ missingVars ⟨none, some "k", some "sg", some "sn"⟩ := by
  have h := C7_missing_env_fatal ⟨none, some "k", some "sg", some "sn"⟩
    (by decide)
  exact ⟨h.1, h.2.2.1, h.2.2.2.1 rfl⟩

/-- C8 counterexample: a provider failure inside `start_instance` is not
caught at the action's boundary — the action ends with the exception
escaping to the caller, and the `__main__` handler exits the process with
status 1 instead of the action returning. -/
theorem C8_start_error_escapes :
    start_instance_run [⟨"i-1", "App 01", "stopped"⟩] "1"
        (some "AccessDenied") =
      ([.startInstances ["i-1"]], .raised "AccessDenied") ∧
    top_level (start_instance_run [⟨"i-1", "App 01", "stopped"⟩] "1"
        (some "AccessDenied")) =
      ([.startInstances ["i-1"]], "❌ Fatal error: AccessDenied", 1) := by
  decide

/-- C8 amended: only `create_instances` catches provider failures at its own
boundary (its outcome is always a normal return, whatever the provider
does); in every other action — start/stop/terminate, single and all — a
provider failure escapes the action and is caught only by the top-level
`__main__` handler, which logs it, prints `❌ Fatal error: ...`, and exits
the process with status 1. -/
theorem C8_error_boundaries (base countInput e : String)
    (createRes : Except String (List String))
    (lookup : Nat → Except String (List Instance))
    (tagErr : Nat → Option String) (waitErr : Option String)
    (xs ys zs ws vs us : List Instance) (cx cy cz : Int)
    (ix iy iz confirm : String) (ax ay az : Instance)
    (hpx : pyInt ix = some cx) (hix : pyIndex xs (cx - 1) = some ax)
    (hsx : ax.state = "stopped")
    (hpy : pyInt iy = some cy) (hiy : pyIndex ys (cy - 1) = some ay)
    (hsy : ay.state = "running")
    (hpz : pyInt iz = some cz) (hiz : pyIndex zs (cz - 1) = some az)
    (hyes : pyLower confirm = "yes")
    (hws : (ws.filter (fun i => i.state = "stopped")).map
      (fun i => i.instanceId) ≠ [])
    (hvs : (vs.filter (fun i => i.state = "running")).map
      (fun i => i.instanceId) ≠ [])
    (hus : us ≠ []) :
    ((create_instances_run base countInput createRes lookup tagErr
        waitErr).2).isDone = true ∧
    start_instance_run xs ix (some e) =
      ([.startInstances [ax.instanceId]], .raised e) ∧
    top_level (start_instance_run xs ix (some e)) =
      ([.startInstances [ax.instanceId]], "❌ Fatal error: " ++ e, 1) ∧
    stop_instance_run ys iy (some e) =
      ([.stopInstances [ay.instanceId]], .raised e) ∧
    top_level (stop_instance_run ys iy (some e)) =
      ([.stopInstances [ay.instanceId]], "❌ Fatal error: " ++ e, 1) ∧
    terminate_instance_run zs iz confirm (some e) =
      ([.terminateInstances [az.instanceId]], .raised e) ∧
    top_level (terminate_instance_run zs iz confirm (some e)) =
      ([.terminateInstances [az.instanceId]], "❌ Fatal error: " ++ e, 1) ∧
    start_all_instances_run ws (some e) =
      ([.startInstances ((ws.filter (fun i => i.state = "stopped")).map
        (fun i => i.instanceId))], .raised e) ∧
    top_level (start_all_instances_run ws (some e)) =
      ([.startInstances ((ws.filter (fun i => i.state = "stopped")).map
        (fun i => i.instanceId))], "❌ Fatal error: " ++ e, 1) ∧
    stop_all_instances_run vs (some e) =
      ([.stopInstances ((vs.filter (fun i => i.state = "running")).map
        (fun i => i.instanceId))], .raised e) ∧
    top_level (stop_all_instances_run vs (some e)) =
      ([.stopInstances ((vs.filter (fun i => i.state = "running")).map
        (fun i => i.instanceId))], "❌ Fatal error: " ++ e, 1) ∧
    (terminate_all_instances_run us confirm (some e)).1 =
      [.terminateInstances (us.map (fun i => i.instanceId))] ∧
    (terminate_all_instances_run us confirm (some e)).2.1 = .raised e ∧
    top_level ((terminate_all_instances_run us confirm (some e)).1,
        (terminate_all_instances_run us confirm (some e)).2.1) =
      ([.terminateInstances (us.map (fun i => i.instanceId))],
       "❌ Fatal error: " ++ e, 1) := by
  have hnex : xs.isEmpty = false := by
    cases xs with
    | nil => rw [pyIndex_nil_eq_none] at hix; cases hix
    | cons a as => rfl
  have hney : ys.isEmpty = false := by
    cases ys with
    | nil => rw [pyIndex_nil_eq_none] at hiy; cases hiy
    | cons a as => rfl
  have hnez : zs.isEmpty = false := by
    cases zs with
    | nil => rw [pyIndex_nil_eq_none] at hiz; cases hiz
    | cons a as => rfl
  have hneu : us.isEmpty = false := by
    cases us with
    | nil => exact absurd rfl hus
    | cons a as => rfl
  have hstart : start_instance_run xs ix (some e) =
      ([.startInstances [ax.instanceId]], .raised e) := by
    simp [start_instance_run, hnex, hpx, hix, hsx]
  have hstop : stop_instance_run ys iy (some e) =
      ([.stopInstances [ay.instanceId]], .raised e) := by
    simp [stop_instance_run, hney, hpy, hiy, hsy]
  have hterm : terminate_instance_run zs iz confirm (some e) =
      ([.terminateInstances [az.instanceId]], .raised e) := by
    simp [terminate_instance_run, hnez, hpz, hiz, hyes]
  have hstartAll : start_all_instances_run ws (some e) =
      ([.startInstances ((ws.filter (fun i => i.state = "stopped")).map
        (fun i => i.instanceId))], .raised e) := by
    simp [start_all_instances_run, hws]
  have hstopAll : stop_all_instances_run vs (some e) =
      ([.stopInstances ((vs.filter (fun i => i.state = "running")).map
        (fun i => i.instanceId))], .raised e) := by
    simp [stop_all_instances_run, hvs]
  have htermAll : terminate_all_instances_run us confirm (some e) =
      ([.terminateInstances (us.map (fun i => i.instanceId))], .raised e,
       some (terminate_all_prompt (us.map (fun i => i.instanceId)).length)) :=
    by
    simp [terminate_all_instances_run, hneu, hyes]
  refine ⟨?_, hstart, by rw [hstart]; rfl, hstop, by rw [hstop]; rfl,
    hterm, by rw [hterm]; rfl, hstartAll, by rw [hstartAll]; rfl,
    hstopAll, by rw [hstopAll]; rfl, by rw [htermAll], by rw [htermAll],
    by rw [htermAll]; rfl⟩
  unfold create_instances_run
  split
  · rfl
  · split
    · rfl
    · split
      · rfl
      · split
        · rfl
        · split <;> rfl

theorem C8_error_boundaries_witness :
    ((create_instances_run "App" "1" (.error "DryRunFailed")
        (fun _ => .ok []) (fun _ => none) none).2).isDone = true ∧
    stop_instance_run [⟨"i-2", "App 02", "running"⟩] "1"
        (some "Throttling") =
      ([.stopInstances ["i-2"]], .raised "Throttling") ∧
    top_level (stop_instance_run [⟨"i-2", "App 02", "running"⟩] "1"
        (some "Throttling")) =
      ([.stopInstances ["i-2"]], "❌ Fatal error: " ++ "Throttling", 1) ∧
    (terminate_all_instances_run [⟨"i-6", "App 06", "pending"⟩] "yes"
        (some "Throttling")).2.1 = .raised "Throttling" := by
  have h := C8_error_boundaries "App" "1" "Throttling" (.error "DryRunFailed")
    (fun _ => .ok []) (fun _ => none) none
    [⟨"i-1", "App 01", "stopped"⟩] [⟨"i-2", "App 02", "running"⟩]
    [⟨"i-3", "App 03", "running"⟩] [⟨"i-4", "App 04", "stopped"⟩]
    [⟨"i-5", "App 05", "running"⟩] [⟨"i-6", "App 06", "pending"⟩]
    1 1 1 "1" "1" "1" "yes"
    ⟨"i-1", "App 01", "stopped"⟩ ⟨"i-2", "App 02", "running"⟩
    ⟨"i-3", "App 03", "running"⟩
    (by decide) (by decide) rfl (by decide) (by decide) rfl
    (by decide) (by decide) (by decide) (by decide) (by decide) (by decide)
  exact ⟨h.1, h.2.2.2.1, h.2.2.2.2.1, h.2.2.2.2.2.2.2.2.2.2.2.2.1⟩

/-- C9 counterexample: an out-of-range index selection in `start_instance`
is not reported-and-aborted inside the action — the `IndexError` escapes the
action and the process terminates abnormally (exit status 1) through the
top-level handler. -/
theorem C9_out_of_range_raises :
    start_instance_run [⟨"i-1", "App 01", "stopped"⟩] "5" none =
      ([], .raised "IndexError") ∧
    top_level (start_instance_run [⟨"i-1", "App 01", "stopped"⟩] "5" none) =
      ([], "❌ Fatal error: IndexError", 1) := by
  decide

/-- C9 amended: an invalid menu choice and a non-numeric creation count are
reported and abort cleanly inside the action (process exit status 0 for the
menu path, normal return for create); but an out-of-range — or non-numeric —
index selection in any of the three single-instance actions (start, stop,
terminate) raises an exception that escapes the action, and the top-level
handler reports it and exits the process with status 1. -/
theorem C9_input_error_handling (raw : String)
    (act : MenuAction → List ApiCall × Outcome)
    (base countInput : String) (createRes : Except String (List String))
    (lookup : Nat → Except String (List Instance))
    (tagErr : Nat → Option String) (waitErr : Option String)
    (instances : List Instance) (badIdxInput badNumInput confirm : String)
    (choice : Int)
    (hraw : main_choice raw = none)
    (hcount : pyInt countInput = none)
    (hne : instances ≠ [])
    (hbadidx : pyInt badIdxInput = some choice)
    (hoor : pyIndex instances (choice - 1) = none)
    (hbadnum : pyInt badNumInput = none) :
    process_run raw act = ([], "❌ Invalid choice", 0) ∧
    create_instances_run base countInput createRes lookup tagErr waitErr =
      ([], .done "❌ Creation failed: ValueError") ∧
    start_instance_run instances badIdxInput none =
      ([], .raised "IndexError") ∧
    top_level (start_instance_run instances badIdxInput none) =
      ([], "❌ Fatal error: IndexError", 1) ∧
    stop_instance_run instances badIdxInput none =
      ([], .raised "IndexError") ∧
    top_level (stop_instance_run instances badIdxInput none) =
      ([], "❌ Fatal error: IndexError", 1) ∧
    terminate_instance_run instances badIdxInput confirm none =
      ([], .raised "IndexError") ∧
    top_level (terminate_instance_run instances badIdxInput confirm none) =
      ([], "❌ Fatal error: IndexError", 1) ∧
    start_instance_run instances badNumInput none =
      ([], .raised "ValueError") ∧
    stop_instance_run instances badNumInput none =
      ([], .raised "ValueError") ∧
    terminate_instance_run instances badNumInput confirm none =
      ([], .raised "ValueError") ∧
    top_level (start_instance_run instances badNumInput none) =
      ([], "❌ Fatal error: ValueError", 1) := by
  have hne' : instances.isEmpty = false := by
    cases instances with
    | nil => exact absurd rfl hne
    | cons a as => rfl
  have hstart : start_instance_run instances badIdxInput none =
      ([], .raised "IndexError") := by
    simp [start_instance_run, hne', hbadidx, hoor]
  have hstop : stop_instance_run instances badIdxInput none =
      ([], .raised "IndexError") := by
    simp [stop_instance_run, hne', hbadidx, hoor]
  have hterm : terminate_instance_run instances badIdxInput confirm none =
      ([], .raised "IndexError") := by
    simp [terminate_instance_run, hne', hbadidx, hoor]
  have hstartN : start_instance_run instances badNumInput none =
      ([], .raised "ValueError") := by
    simp [start_instance_run, hne', hbadnum]
  refine ⟨?_, ?_, hstart, by rw [hstart]; rfl, hstop, by rw [hstop]; rfl,
    hterm, by rw [hterm]; rfl, hstartN, ?_, ?_, by rw [hstartN]; rfl⟩
  · simp [process_run, main_run, top_level, hraw]
  · simp [create_instances_run, hcount]
  · simp [stop_instance_run, hne', hbadnum]
  · simp [terminate_instance_run, hne', hbadnum]

theorem C9_input_error_handling_witness :
    process_run "9" (fun _ => ([], .done "")) =
      ([], "❌ Invalid choice", 0) ∧
    create_instances_run "App" "abc" (.ok []) (fun _ => .ok [])
        (fun _ => none) none =
      ([], .done "❌ Creation failed: ValueError") ∧
    top_level (start_instance_run [⟨"i-1", "App 01", "stopped"⟩] "5" none) =
      ([], "❌ Fatal error: IndexError", 1) ∧
    top_level (stop_instance_run [⟨"i-1", "App 01", "stopped"⟩] "5" none) =
      ([], "❌ Fatal error: IndexError", 1) ∧
    terminate_instance_run [⟨"i-1", "App 01", "stopped"⟩] "5" "yes" none =
      ([], .raised "IndexError") := by
  have h := C9_input_error_handling "9" (fun _ => ([], .done "")) "App" "abc"
    (.ok []) (fun _ => .ok []) (fun _ => none) none
    [⟨"i-1", "App 01", "stopped"⟩] "5" "x" "yes" 5
    (by decide) (by decide) (by decide) (by decide) (by decide) (by decide)
  exact ⟨h.1, h.2.1, h.2.2.2.1, h.2.2.2.2.2.1, h.2.2.2.2.2.2.1⟩

theorem pyIndex_neg_one (xs : List Instance) (h : xs ≠ []) :
    pyIndex xs (-1) = xs.getLast? := by
  have hlen : 0 < xs.length := List.length_pos.mpr h
  rw [pyIndex, if_neg (by omega), if_pos (by omega)]
  have ht : ((-1 : Int) + (xs.length : Int)).toNat = xs.length - 1 := by
    omega
  rw [ht, List.get?_eq_getElem?, List.getLast?_eq_getElem?]

/-- C10: with a non-empty listing, entering index `0` in the single-instance
start, stop, or terminate action is not rejected as out of range: position
`0 - 1 = -1` selects the last instance of the listing, and the action
proceeds against it, subject to its state gate or confirmation. -/
theorem C10_zero_selects_last (instances : List Instance) (inst : Instance)
    (hlast : instances.getLast? = some inst) :
    pyInt "0" = some 0 ∧
    pyIndex instances (0 - 1) = some inst ∧
    (inst.state = "stopped" →
      start_instance_run instances "0" none =
        ([.startInstances [inst.instanceId]],
         .done ("✅ Starting " ++ inst.name))) ∧
    (inst.state ≠ "stopped" →
      start_instance_run instances "0" none =
        ([], .done "❌ Instance must be in stopped state")) ∧
    (inst.state = "running" →
      stop_instance_run instances "0" none =
        ([.stopInstances [inst.instanceId]],
         .done ("✅ Stopping " ++ inst.name))) ∧
    (inst.state ≠ "running" →
      stop_instance_run instances "0" none =
        ([], .done "❌ Instance must be running")) ∧
    terminate_instance_run instances "0" "yes" none =
      ([.terminateInstances [inst.instanceId]],
       .done ("✅ Terminated " ++ inst.name)) ∧
    terminate_instance_run instances "0" "no" none =
      ([], .done "Cancelled.") := by
  have hne : instances ≠ [] := by
    intro h
    rw [h] at hlast
    cases hlast
  have hne' : instances.isEmpty = false := by
    cases instances with
    | nil => exact absurd rfl hne
    | cons a as => rfl
  have hzero : (0 - 1 : Int) = -1 := by decide
  have hidx' : pyIndex instances (-1) = some inst := by
    rw [pyIndex_neg_one instances hne, hlast]
  have hidx : pyIndex instances (0 - 1) = some inst := by
    rw [hzero]
    exact hidx'
  have hparse : pyInt "0" = some 0 := by decide
  have hy : pyLower "yes" = "yes" := by decide
  have hn : ¬ pyLower "no" = "yes" := by decide
  refine ⟨hparse, hidx, ?_, ?_, ?_, ?_, ?_, ?_⟩
  · intro hstate
    simp [start_instance_run, hne', hparse, hidx', hstate]
  · intro hstate
    simp [start_instance_run, hne', hparse, hidx', hstate]
  · intro hstate
    simp [stop_instance_run, hne', hparse, hidx', hstate]
  · intro hstate
    simp [stop_instance_run, hne', hparse, hidx', hstate]
  · simp [terminate_instance_run, hne', hparse, hidx', hy]
  · simp [terminate_instance_run, hne', hparse, hidx', hn]

theorem C10_zero_selects_last_witness :
    pyIndex ([⟨"i-1", "App 01", "running"⟩, ⟨"i-2", "App 02", "stopped"⟩] :
        List Instance) ((0 : Int) - 1) =
      some ⟨"i-2", "App 02", "stopped"⟩ ∧
    start_instance_run
        [⟨"i-1", "App 01", "running"⟩, ⟨"i-2", "App 02", "stopped"⟩] "0"
        none =
      ([.startInstances ["i-2"]], .done ("✅ Starting " ++ "App 02")) := by
  have h := C10_zero_selects_last
    [⟨"i-1", "App 01", "running"⟩, ⟨"i-2", "App 02", "stopped"⟩]
    ⟨"i-2", "App 02", "stopped"⟩ (by decide)
  exact ⟨h.2.1, h.2.2.1 rfl⟩

end Ec2Manager
